import Mathlib

/-!
Verification development for the midi-node repository.

The file shallowly embeds the parts of the source that the verified
properties talk about:

* `src/input.py` — the gesture-detection engine (`KeyboardInputManager`):
  per-control timing state, edge handling and the timeout sweep.
* `src/main.py` — the Action model and registry (`Action.to_dict` /
  `Action.from_dict`, the four registered action kinds), the
  `StorageManager` preset/bank operations with bank-integrity sweep,
  and the list-screen navigation (`MenuState`, `ListItemReplaceState`).

Python float timestamps are modelled as integers in arbitrary time
units (the engine only ever subtracts and compares them); Python
`None` for an optional timestamp is `Option`; a raised exception is the
`none` branch of an `Option`-returning function, and value truthiness
(`if data["press_timestamp"]:` is false both for `None` and for `0.0`)
is modelled explicitly.
-/

/-! ## Gesture engine (src/input.py) -/

/-- The `ButtonEvent` enumeration of `src/input.py`. -/
inductive ButtonEvent where
  | PRESS
  | RELEASE
  | TAP
  | DOUBLE_TAP
  | TRIPLE_TAP
  | LONG_PRESS
  | LONG_PRESS_RELEASE
deriving DecidableEq, Repr

/-- Per-button timing record created by `KeyboardInputManager.add_button`. -/
structure ButtonData where
  tap_time : ℤ
  long_press_time : ℤ
  press_timestamp : Option ℤ
  tap_count : ℕ
  tap_timer_start : Option ℤ
  long_press_fired : Bool
deriving DecidableEq, Repr

/-- A raw hardware edge (`MockEvent.event_type`). -/
inductive Edge where
  | falling
  | rising
deriving DecidableEq, Repr

/-- Python truthiness of an optional float: `None` and `0.0` are falsy. -/
def timeTruthy : Option ℤ → Bool
  | none => false
  | some t => t != 0

/-- Python `gestures.get(tap_count, TRIPLE_TAP)` with `gestures = {1: TAP, 2: DOUBLE_TAP, 3: TRIPLE_TAP}`. -/
def tapGesture (n : ℕ) : ButtonEvent :=
  if n = 1 then ButtonEvent.TAP
  else if n = 2 then ButtonEvent.DOUBLE_TAP
  else ButtonEvent.TRIPLE_TAP

/-- Models `KeyboardInputManager._handle_mock_hardware_event`: processes one dequeued
edge for a button at wall-clock time `now`, returning the updated record and
the events fired (in firing order). -/
def handleHardwareEvent (d : ButtonData) (e : Edge) (now : ℤ) : ButtonData × List ButtonEvent :=
  match e with
  | Edge.falling =>
      ({ d with press_timestamp := some now, long_press_fired := false }, [ButtonEvent.PRESS])
  | Edge.rising =>
      if timeTruthy d.press_timestamp then
        match d.press_timestamp with
        | some pts =>
            let duration := now - pts
            if duration < d.long_press_time then
              ({ d with tap_count := d.tap_count + 1, tap_timer_start := some now,
                        press_timestamp := none }, [ButtonEvent.RELEASE])
            else
              ({ d with press_timestamp := none }, [ButtonEvent.RELEASE])
        | none => (d, [])
      else (d, [])

/-- First block of `_check_all_timeouts`:
`if data["press_timestamp"] and not data["long_press_fired"]: ...`. -/
def checkLongPress (d : ButtonData) (now : ℤ) : ButtonData × List ButtonEvent :=
  if timeTruthy d.press_timestamp ∧ d.long_press_fired = false then
    match d.press_timestamp with
    | some pts =>
        if now - pts ≥ d.long_press_time then
          ({ d with long_press_fired := true, tap_count := 0 }, [ButtonEvent.LONG_PRESS])
        else (d, [])
    | none => (d, [])
  else (d, [])

/-- Second block of `_check_all_timeouts`:
`if data["tap_count"] > 0 and data["tap_timer_start"]: ...`. -/
def checkTapWindow (d : ButtonData) (now : ℤ) : ButtonData × List ButtonEvent :=
  if d.tap_count > 0 ∧ timeTruthy d.tap_timer_start then
    match d.tap_timer_start with
    | some tts =>
        if now - tts > d.tap_time then
          ({ d with tap_count := 0, tap_timer_start := none }, [tapGesture d.tap_count])
        else (d, [])
    | none => (d, [])
  else (d, [])

/-- Models `KeyboardInputManager._check_all_timeouts` for a single button: the
long-press block runs first, then the multi-tap block sees its updates. -/
def checkTimeouts (d : ButtonData) (now : ℤ) : ButtonData × List ButtonEvent :=
  let lp := checkLongPress d now
  let tp := checkTapWindow lp.1 now
  (tp.1, lp.2 ++ tp.2)

/-- A control together with its auto-repeat guard `key_states[key]`. -/
structure ControlState where
  key_down : Bool
  data : ButtonData
deriving DecidableEq, Repr

/-- Fresh state created by `add_button` (`press_timestamp=None`, `tap_count=0`,
`tap_timer_start=None`, `long_press_fired=False`, key not down). -/
def addButton (tap_time long_press : ℤ) : ControlState :=
  { key_down := false,
    data := { tap_time := tap_time, long_press_time := long_press,
              press_timestamp := none, tap_count := 0,
              tap_timer_start := none, long_press_fired := false } }

/-- The `_on_key_event` filtering composed with the dequeued hardware handling:
a falling edge while the key is already down is dropped before it reaches
the queue; otherwise the edge updates the guard and is processed. -/
def onEdge (s : ControlState) (e : Edge) (now : ℤ) : ControlState × List ButtonEvent :=
  match e with
  | Edge.falling =>
      if s.key_down then (s, [])
      else
        let r := handleHardwareEvent s.data Edge.falling now
        ({ key_down := true, data := r.1 }, r.2)
  | Edge.rising =>
      let r := handleHardwareEvent s.data Edge.rising now
      ({ key_down := false, data := r.1 }, r.2)

/-- One step of the `start` loop: either an edge is dequeued or the timeout
sweep runs, each at some wall-clock time. -/
inductive GestureOp where
  | edge (e : Edge) (t : ℤ)
  | check (t : ℤ)

/-- Apply one loop step. -/
def stepGesture (s : ControlState) : GestureOp → ControlState × List ButtonEvent
  | GestureOp.edge e t => onEdge s e t
  | GestureOp.check t =>
      let r := checkTimeouts s.data t
      ({ s with data := r.1 }, r.2)

/-- Run a sequence of loop steps, concatenating all fired events. -/
def runGesture : ControlState → List GestureOp → ControlState × List ButtonEvent
  | s, [] => (s, [])
  | s, op :: ops =>
      let r := stepGesture s op
      let rest := runGesture r.1 ops
      (rest.1, r.2 ++ rest.2)

/-- The chain in `tapGesture` never yields `LONG_PRESS_RELEASE`. -/
theorem tapGesture_ne_lpr (n : ℕ) : tapGesture n ≠ ButtonEvent.LONG_PRESS_RELEASE := by
  unfold tapGesture
  split_ifs <;> simp

/-- C4: a control held down (truthy press timestamp), with the long-press
flag still clear, whose elapsed hold time has reached the threshold, fires
exactly `[LONG_PRESS]` at the timeout check; the resulting state has the
flag set and tap count zero, and every later timeout check on that state
fires nothing at all (so `LongPress` fires exactly once per press and no
pending multi-tap gesture can fire). -/
theorem c4_long_press (d : ButtonData) (pts now : ℤ)
    (hopen : d.press_timestamp = some pts) (hz : pts ≠ 0)
    (hnf : d.long_press_fired = false)
    (hdue : now - pts ≥ d.long_press_time) :
    checkTimeouts d now
      = ({ d with long_press_fired := true, tap_count := 0 }, [ButtonEvent.LONG_PRESS])
    ∧ ∀ later : ℤ,
        (checkTimeouts ({ d with long_press_fired := true, tap_count := 0 }) later).2 = [] := by
  constructor
  · simp [checkTimeouts, checkLongPress, checkTapWindow, hopen, hnf, timeTruthy, hz, hdue]
  · intro later
    simp [checkTimeouts, checkLongPress, checkTapWindow, hopen, timeTruthy]

/-- A button held since time 1 with thresholds tap-window 1, long-press 2. -/
def heldButton : ButtonData :=
  { tap_time := 1, long_press_time := 2, press_timestamp := some 1,
    tap_count := 0, tap_timer_start := none, long_press_fired := false }

/-- Witness for C4 at a concrete held button checked at time 3. -/
theorem c4_witness :
    checkTimeouts heldButton 3
      = ({ heldButton with long_press_fired := true, tap_count := 0 }, [ButtonEvent.LONG_PRESS])
    ∧ (checkTimeouts ({ heldButton with long_press_fired := true, tap_count := 0 }) 5).2 = [] :=
  ⟨(c4_long_press heldButton 1 3 rfl (by decide) rfl (by decide)).1,
   (c4_long_press heldButton 1 3 rfl (by decide) rfl (by decide)).2 5⟩

/-- C3 (amended): when a tap count is pending, the tap-window timer is open
and the window has expired at the check, and additionally the long-press
block does not fire at the same check (press timestamp closed or falsy,
long-press already fired, or hold still below the threshold), the check
emits exactly one gesture determined by the count (1 is `TAP`, 2 is
`DOUBLE_TAP`, 3 or more is `TRIPLE_TAP`) and clears the count and timer. -/
theorem c3_multitap_amended (d : ButtonData) (tts now : ℤ)
    (hcount : d.tap_count > 0)
    (htimer : d.tap_timer_start = some tts) (htz : tts ≠ 0)
    (hexp : now - tts > d.tap_time)
    (hnolp : ∀ pts : ℤ, d.press_timestamp = some pts →
        pts = 0 ∨ d.long_press_fired = true ∨ now - pts < d.long_press_time) :
    checkTimeouts d now
      = ({ d with tap_count := 0, tap_timer_start := none }, [tapGesture d.tap_count])
    ∧ (d.tap_count = 1 → tapGesture d.tap_count = ButtonEvent.TAP)
    ∧ (d.tap_count = 2 → tapGesture d.tap_count = ButtonEvent.DOUBLE_TAP)
    ∧ (3 ≤ d.tap_count → tapGesture d.tap_count = ButtonEvent.TRIPLE_TAP) := by
  refine ⟨?_, fun h1 => by simp [tapGesture, h1], fun h2 => by simp [tapGesture, h2],
          fun h3 => by
            have hn1 : d.tap_count ≠ 1 := by omega
            have hn2 : d.tap_count ≠ 2 := by omega
            simp [tapGesture, hn1, hn2]⟩
  have hlp : checkLongPress d now = (d, []) := by
    rcases hp : d.press_timestamp with _ | pts
    · simp [checkLongPress, hp, timeTruthy]
    · rcases hnolp pts hp with h0 | hf | hlt
      · subst h0
        simp [checkLongPress, hp, timeTruthy]
      · simp [checkLongPress, hf]
      · simp [checkLongPress, hp, timeTruthy, not_le.mpr hlt]
  simp [checkTimeouts, hlp, checkTapWindow, htimer, hcount, timeTruthy, htz, hexp]

/-- A button with two accumulated taps (window opened at time 3) and no
press in flight; thresholds tap-window 1, long-press 2. -/
def tapPendingButton : ButtonData :=
  { tap_time := 1, long_press_time := 2, press_timestamp := none,
    tap_count := 2, tap_timer_start := some 3, long_press_fired := false }

/-- Witness for the amended C3 at a concrete pending double tap checked at
time 5. -/
theorem c3_witness :
    checkTimeouts tapPendingButton 5
      = ({ tapPendingButton with tap_count := 0, tap_timer_start := none },
         [tapGesture tapPendingButton.tap_count])
    ∧ tapGesture tapPendingButton.tap_count = ButtonEvent.DOUBLE_TAP :=
  ⟨(c3_multitap_amended tapPendingButton 3 5 (by decide) rfl (by decide) (by decide)
      (fun _ h => Option.noConfusion h)).1,
   (c3_multitap_amended tapPendingButton 3 5 (by decide) rfl (by decide) (by decide)
      (fun _ h => Option.noConfusion h)).2.2.1 rfl⟩

/-- State reached from a fresh button (tap-window 1, long-press 2) by the
edge trace press at time 1, release at time 2 (accumulating one tap and
opening the tap window), press again at time 3 and hold: both a pending
tap and an open press are in flight. -/
def c3MixedState : ButtonData :=
  ((onEdge (onEdge (onEdge (addButton 1 2) Edge.falling 1).1 Edge.rising 2).1
      Edge.falling 3).1).data

/-- C3 counterexample: in `c3MixedState` the tap count is 1 with the
tap-window timer open, and the timeout check at time 10 runs strictly more
than the tap-window duration after the window start, yet — because the
long-press block of `_check_all_timeouts` runs first and zeroes the tap
count — the check emits `LONG_PRESS`, not the `TAP` the count prescribes,
and the tap-window timer is left set rather than cleared. -/
theorem c3_counterexample :
    c3MixedState.tap_count = 1 ∧ c3MixedState.tap_timer_start = some 2
    ∧ ((10:ℤ) - 2 > c3MixedState.tap_time)
    ∧ (checkTimeouts c3MixedState 10).2 = [ButtonEvent.LONG_PRESS]
    ∧ ButtonEvent.LONG_PRESS ≠ ButtonEvent.TAP
    ∧ (checkTimeouts c3MixedState 10).1.tap_timer_start = some 2 := by decide

/-- C9: a falling edge arriving while the control's "currently down" flag
is already set is a complete no-op (state unchanged, nothing emitted);
a falling edge on a control that is not down sets the flag, records the
press timestamp, clears the long-press flag, and emits exactly `PRESS`. -/
theorem c9_auto_repeat (s : ControlState) (now : ℤ) :
    (s.key_down = true → onEdge s Edge.falling now = (s, []))
    ∧ (s.key_down = false →
        (onEdge s Edge.falling now).1
          = { key_down := true,
              data := { s.data with press_timestamp := some now, long_press_fired := false } }
        ∧ (onEdge s Edge.falling now).2 = [ButtonEvent.PRESS]) := by
  constructor
  · intro h; simp [onEdge, h]
  · intro h; simp [onEdge, h, handleHardwareEvent]

/-- A control that is currently held down. -/
def downState : ControlState :=
  { key_down := true, data := (addButton 1 2).data }

/-- Witness for C9: a repeated falling edge on a down control is dropped,
while the first falling edge on a fresh control emits `PRESS`. -/
theorem c9_witness :
    onEdge downState Edge.falling 7 = (downState, [])
    ∧ (onEdge (addButton 1 2) Edge.falling 7).2 = [ButtonEvent.PRESS] :=
  ⟨(c9_auto_repeat downState 7).1 rfl, ((c9_auto_repeat (addButton 1 2) 7).2 rfl).2⟩

/-- Edge handling never mentions `LONG_PRESS_RELEASE`. -/
theorem count_lpr_handle (d : ButtonData) (e : Edge) (now : ℤ) :
    (handleHardwareEvent d e now).2.count ButtonEvent.LONG_PRESS_RELEASE = 0 := by
  cases e
  · simp [handleHardwareEvent]
  · simp only [handleHardwareEvent]
    split
    · split
      · split <;> simp
      · simp
    · simp

/-- The long-press block never fires `LONG_PRESS_RELEASE`. -/
theorem count_lpr_longpress (d : ButtonData) (now : ℤ) :
    (checkLongPress d now).2.count ButtonEvent.LONG_PRESS_RELEASE = 0 := by
  unfold checkLongPress
  split
  · split
    · split <;> simp
    · simp
  · simp

/-- The multi-tap block never fires `LONG_PRESS_RELEASE`. -/
theorem count_lpr_tap (d : ButtonData) (now : ℤ) :
    (checkTapWindow d now).2.count ButtonEvent.LONG_PRESS_RELEASE = 0 := by
  unfold checkTapWindow
  split
  · split
    · split
      · simp [List.count_singleton', tapGesture_ne_lpr]
      · simp
    · simp
  · simp

/-- The timeout sweep never fires `LONG_PRESS_RELEASE`. -/
theorem count_lpr_check (d : ButtonData) (now : ℤ) :
    (checkTimeouts d now).2.count ButtonEvent.LONG_PRESS_RELEASE = 0 := by
  unfold checkTimeouts
  dsimp only
  rw [List.count_append, count_lpr_longpress, count_lpr_tap]

/-- C10: over every sequence of falling/rising edges and timeout checks,
from any control state, the engine never fires `LONG_PRESS_RELEASE`: the
variant exists in the `ButtonEvent` enumeration but no classification path
emits it. -/
theorem c10_no_long_press_release (s : ControlState) (ops : List GestureOp) :
    (runGesture s ops).2.count ButtonEvent.LONG_PRESS_RELEASE = 0 := by
  induction ops generalizing s with
  | nil => simp [runGesture]
  | cons op ops ih =>
      simp only [runGesture]
      rw [List.count_append, ih]
      rcases op with ⟨e, t⟩ | t
      · have h1 : (stepGesture s (GestureOp.edge e t)).2.count
            ButtonEvent.LONG_PRESS_RELEASE = 0 := by
          simp only [stepGesture]
          rcases e with _ | _
          · simp only [onEdge]
            split
            · simp
            · exact count_lpr_handle _ _ _
          · simp only [onEdge]
            exact count_lpr_handle _ _ _
        omega
      · have h1 : (stepGesture s (GestureOp.check t)).2.count
            ButtonEvent.LONG_PRESS_RELEASE = 0 := by
          simp only [stepGesture]
          exact count_lpr_check _ _
        omega

/-! ## JSON values and persisted records (src/main.py: StorageManager) -/

/-- A JSON value as produced by `json.load` / consumed by `json.dump`. -/
inductive JVal where
  | jstr : String → JVal
  | jint : Int → JVal
  | jnull : JVal
  | jlist : List JVal → JVal
  | jobj : List (String × JVal) → JVal

/-- Python `dict.get(key)` on a JSON object (keys are unique in a parsed
JSON object; the first match is returned). -/
def lookupField : List (String × JVal) → String → Option JVal
  | [], _ => none
  | (k, v) :: rest, key => if k = key then some v else lookupField rest key

/-- A slot-numbered file on disk: either parseable JSON or malformed
(`json.load` raises on it). -/
inductive StoredFile where
  | valid : JVal → StoredFile
  | corrupt : StoredFile

/-- The `Bank` record: a name plus an ordered list of preset slot numbers. -/
structure Bank where
  name : String
  preset_numbers : List ℤ
deriving DecidableEq, Repr

/-- The persisted state managed by `StorageManager`: the preset directory
and the bank directory, each a finite map from slot number to file. The
bank files relevant to the integrity sweep are modelled parsed. -/
structure Storage where
  presets : List (ℤ × StoredFile)
  banks : List (ℤ × Bank)

/-- Slot-keyed file lookup (`path.exists()` + read). -/
def alookup {α : Type} : List (ℤ × α) → ℤ → Option α
  | [], _ => none
  | (k, v) :: rest, key => if k = key then some v else alookup rest key

/-- Delete the file at a slot (`os.remove`). -/
def aremove {α : Type} : List (ℤ × α) → ℤ → List (ℤ × α)
  | [], _ => []
  | (k, v) :: rest, key => if k = key then aremove rest key else (k, v) :: aremove rest key

/-- Write a file at a slot, overwriting any existing one. -/
def aset {α : Type} (l : List (ℤ × α)) (key : ℤ) (v : α) : List (ℤ × α) :=
  aremove l key ++ [(key, v)]

/-- The per-bank rewrite inside `_update_banks_on_preset_change`: every
occurrence of `oldn` is replaced by `newn` when a preset moved, or dropped
when it was deleted (`new_num is None`). -/
def replaceOrRemove (oldn : ℤ) (newn : Option ℤ) : List ℤ → List ℤ
  | [] => []
  | p :: ps =>
      if p = oldn then
        match newn with
        | some n => n :: replaceOrRemove oldn newn ps
        | none => replaceOrRemove oldn newn ps
      else p :: replaceOrRemove oldn newn ps

/-- Models `StorageManager._update_banks_on_preset_change`: every bank whose list
mentions `oldn` is rewritten and saved back under its own id; other banks
are untouched. -/
def updateBanksOnPresetChange (banks : List (ℤ × Bank)) (oldn : ℤ) (newn : Option ℤ) :
    List (ℤ × Bank) :=
  banks.map (fun b =>
    if oldn ∈ b.2.preset_numbers then
      (b.1, { name := b.2.name, preset_numbers := replaceOrRemove oldn newn b.2.preset_numbers })
    else b)

/-- The exception raised by a storage operation (`FileNotFoundError`). -/
inductive StorageErr where
  | notFound (slot : ℤ)
deriving DecidableEq, Repr

/-- The `mode` argument of `reorder_presets`. -/
inductive ReorderMode where
  | move
  | clone
deriving DecidableEq, Repr

/-- Models `StorageManager.reorder_presets`: checks that the source slot exists
(raising `FileNotFoundError` otherwise, before any mutation), then either
moves the file and propagates the renumbering into every bank, or copies
the file without touching any bank. Returns the post-state and the raised
error, if any. -/
def reorder_presets (st : Storage) (source_num target_num : ℤ) (mode : ReorderMode) :
    Storage × Option StorageErr :=
  match alookup st.presets source_num with
  | none => (st, some (StorageErr.notFound source_num))
  | some content =>
      match mode with
      | ReorderMode.move =>
          ({ presets := aset (aremove st.presets source_num) target_num content,
             banks := updateBanksOnPresetChange st.banks source_num (some target_num) }, none)
      | ReorderMode.clone =>
          ({ st with presets := aset st.presets target_num content }, none)

/-- Models `StorageManager.remove_preset`: if the slot exists, deletes the file
and propagates the deletion into every bank; otherwise does nothing and
reports nothing. -/
def remove_preset (st : Storage) (number : ℤ) : Storage × Option StorageErr :=
  match alookup st.presets number with
  | some _ =>
      ({ presets := aremove st.presets number,
         banks := updateBanksOnPresetChange st.banks number none }, none)
  | none => (st, none)

/-- One storage mutation from the claimed class: a `move` reorder or a
preset removal. -/
inductive StorageOp where
  | move (source target : ℤ)
  | remove (n : ℤ)

/-- Apply one mutation (a raised not-found error leaves the state as it
was at the raise point, which precedes any mutation). -/
def applyStorageOp (st : Storage) : StorageOp → Storage
  | StorageOp.move s t => (reorder_presets st s t ReorderMode.move).1
  | StorageOp.remove n => (remove_preset st n).1

/-- Run a sequence of storage mutations. -/
def runStorageOps : Storage → List StorageOp → Storage
  | st, [] => st
  | st, op :: ops => runStorageOps (applyStorageOp st op) ops

/-- Bank referential integrity: every slot number mentioned by any bank
has a persisted preset file. -/
def BankOK (st : Storage) : Prop :=
  ∀ b ∈ st.banks, ∀ p ∈ b.2.preset_numbers, (alookup st.presets p).isSome = true

instance instDecidableBankOK (st : Storage) : Decidable (BankOK st) := by
  unfold BankOK
  infer_instance

/-- Models `StorageManager.get_preset_list`: one `{number, name}` entry per stored
preset file; a file whose parse or field access raises is reported with the
sentinel name `Error` (the `except` branch) instead of failing the listing. -/
def get_preset_list : List (ℤ × StoredFile) → List (ℤ × JVal)
  | [] => []
  | (n, f) :: rest =>
      (n,
        match f with
        | StoredFile.valid (JVal.jobj fs) => (lookupField fs "name").getD (JVal.jstr "Unnamed")
        | StoredFile.valid _ => JVal.jstr "Error"
        | StoredFile.corrupt => JVal.jstr "Error") :: get_preset_list rest

/-- Models `StorageManager.get_bank_list`: same listing but with no `try/except`
around the body — a file whose parse or field access raises aborts the
whole listing (the raised exception is the `none` result). -/
def get_bank_list : List (ℤ × StoredFile) → Option (List (ℤ × JVal))
  | [] => some []
  | (n, StoredFile.valid (JVal.jobj fs)) :: rest =>
      (get_bank_list rest).map
        (fun l => (n, (lookupField fs "name").getD (JVal.jstr "Unnamed")) :: l)
  | (_, StoredFile.valid _) :: _ => none
  | (_, StoredFile.corrupt) :: _ => none

/-- Lookup after deletion: the deleted slot is gone, others unchanged. -/
theorem alookup_aremove {α : Type} (l : List (ℤ × α)) (k q : ℤ) :
    alookup (aremove l k) q = if q = k then none else alookup l q := by
  induction l with
  | nil => simp [aremove, alookup]
  | cons p rest ih =>
      obtain ⟨pk, pv⟩ := p
      simp only [aremove, alookup]
      by_cases h1 : pk = k <;> by_cases h2 : q = k <;> by_cases h3 : pk = q <;>
        simp_all [alookup, ih]

/-- Lookup across concatenation. -/
theorem alookup_append {α : Type} (l1 l2 : List (ℤ × α)) (q : ℤ) :
    alookup (l1 ++ l2) q
      = match alookup l1 q with
        | some v => some v
        | none => alookup l2 q := by
  induction l1 with
  | nil => simp [alookup]
  | cons p rest ih =>
      obtain ⟨pk, pv⟩ := p
      by_cases h : pk = q <;> simp [alookup, h, ih]

/-- Lookup after an overwriting write. -/
theorem alookup_aset {α : Type} (l : List (ℤ × α)) (k q : ℤ) (v : α) :
    alookup (aset l k v) q = if q = k then some v else alookup l q := by
  unfold aset
  rw [alookup_append, alookup_aremove]
  by_cases h : q = k
  · simp [h, alookup]
  · simp only [h, if_false]
    cases alookup l q
    · simp only [alookup]
      rw [if_neg (fun hh : k = q => h hh.symm)]
    · rfl

/-- Membership after a replacement rewrite. -/
theorem mem_replaceOrRemove_some {q oldn t : ℤ} {l : List ℤ}
    (h : q ∈ replaceOrRemove oldn (some t) l) : q = t ∨ (q ∈ l ∧ q ≠ oldn) := by
  induction l with
  | nil => simp [replaceOrRemove] at h
  | cons p ps ih =>
      simp only [replaceOrRemove] at h
      by_cases hp : p = oldn
      · rw [if_pos hp] at h
        rcases List.mem_cons.mp h with rfl | h2
        · exact Or.inl rfl
        · rcases ih h2 with h1 | ⟨h3, h4⟩
          · exact Or.inl h1
          · exact Or.inr ⟨List.mem_cons_of_mem _ h3, h4⟩
      · rw [if_neg hp] at h
        rcases List.mem_cons.mp h with rfl | h2
        · exact Or.inr ⟨List.mem_cons_self _ _, hp⟩
        · rcases ih h2 with h1 | ⟨h3, h4⟩
          · exact Or.inl h1
          · exact Or.inr ⟨List.mem_cons_of_mem _ h3, h4⟩

/-- Membership after a removal rewrite. -/
theorem mem_replaceOrRemove_none {q oldn : ℤ} {l : List ℤ}
    (h : q ∈ replaceOrRemove oldn none l) : q ∈ l ∧ q ≠ oldn := by
  induction l with
  | nil => simp [replaceOrRemove] at h
  | cons p ps ih =>
      simp only [replaceOrRemove] at h
      by_cases hp : p = oldn
      · rw [if_pos hp] at h
        obtain ⟨h2, h3⟩ := ih h
        exact ⟨List.mem_cons_of_mem _ h2, h3⟩
      · rw [if_neg hp] at h
        rcases List.mem_cons.mp h with rfl | h2
        · exact ⟨List.mem_cons_self _ _, hp⟩
        · obtain ⟨h3, h4⟩ := ih h2
          exact ⟨List.mem_cons_of_mem _ h3, h4⟩

/-- A successful `move` preserves bank integrity. -/
theorem bankOK_move (st : Storage) (h : BankOK st) (s t : ℤ) :
    BankOK ((reorder_presets st s t ReorderMode.move).1) := by
  rcases hs : alookup st.presets s with _ | content
  · simpa [reorder_presets, hs] using h
  · intro b hb p hp
    simp only [reorder_presets, hs] at hb hp ⊢
    rcases List.mem_map.mp hb with ⟨b0, hb0, rfl⟩
    by_cases hmem : s ∈ b0.2.preset_numbers
    · rw [if_pos hmem] at hp
      rcases mem_replaceOrRemove_some hp with rfl | ⟨hql, hqs⟩
      · simp [alookup_aset]
      · by_cases hpt : p = t
        · simp [alookup_aset, hpt]
        · rw [alookup_aset, if_neg hpt, alookup_aremove, if_neg hqs]
          exact h b0 hb0 p hql
    · rw [if_neg hmem] at hp
      have hqs : p ≠ s := fun hh => hmem (hh ▸ hp)
      by_cases hpt : p = t
      · simp [alookup_aset, hpt]
      · rw [alookup_aset, if_neg hpt, alookup_aremove, if_neg hqs]
        exact h b0 hb0 p hp

/-- A removal preserves bank integrity. -/
theorem bankOK_remove (st : Storage) (h : BankOK st) (n : ℤ) :
    BankOK ((remove_preset st n).1) := by
  rcases hs : alookup st.presets n with _ | content
  · simpa [remove_preset, hs] using h
  · intro b hb p hp
    simp only [remove_preset, hs] at hb hp ⊢
    rcases List.mem_map.mp hb with ⟨b0, hb0, rfl⟩
    by_cases hmem : n ∈ b0.2.preset_numbers
    · rw [if_pos hmem] at hp
      obtain ⟨hql, hqn⟩ := mem_replaceOrRemove_none hp
      rw [alookup_aremove, if_neg hqn]
      exact h b0 hb0 p hql
    · rw [if_neg hmem] at hp
      have hqn : p ≠ n := fun hh => hmem (hh ▸ hp)
      rw [alookup_aremove, if_neg hqn]
      exact h b0 hb0 p hp

/-- Rewriting with a replacement is a pointwise substitution. -/
theorem replaceOrRemove_some_eq (s t : ℤ) (l : List ℤ) :
    replaceOrRemove s (some t) l = l.map (fun p => if p = s then t else p) := by
  induction l with
  | nil => rfl
  | cons p ps ih => by_cases h : p = s <;> simp [replaceOrRemove, h, ih]

/-- Rewriting with a deletion is a filter. -/
theorem replaceOrRemove_none_eq (s : ℤ) (l : List ℤ) :
    replaceOrRemove s none l = l.filter (fun p => p ≠ s) := by
  induction l with
  | nil => rfl
  | cons p ps ih => by_cases h : p = s <;> simp [replaceOrRemove, h, ih]

/-- The bank sweep for a move substitutes the slot in every bank. -/
theorem updateBanks_move_eq (banks : List (ℤ × Bank)) (s t : ℤ) :
    updateBanksOnPresetChange banks s (some t)
      = banks.map (fun b =>
          (b.1, Bank.mk b.2.name (b.2.preset_numbers.map (fun p => if p = s then t else p)))) := by
  unfold updateBanksOnPresetChange
  apply List.map_congr_left
  intro b _
  by_cases hmem : s ∈ b.2.preset_numbers
  · simp [hmem, replaceOrRemove_some_eq]
  · rw [if_neg hmem]
    have hm : ∀ p ∈ b.2.preset_numbers, (if p = s then t else p) = p := by
      intro p hp
      rw [if_neg (fun hh : p = s => hmem (hh ▸ hp))]
    rw [List.map_congr_left hm, List.map_id']

/-- The bank sweep for a removal filters the slot out of every bank. -/
theorem updateBanks_remove_eq (banks : List (ℤ × Bank)) (n : ℤ) :
    updateBanksOnPresetChange banks n none
      = banks.map (fun b =>
          (b.1, Bank.mk b.2.name (b.2.preset_numbers.filter (fun p => p ≠ n)))) := by
  unfold updateBanksOnPresetChange
  apply List.map_congr_left
  intro b _
  by_cases hmem : n ∈ b.2.preset_numbers
  · simp [hmem, replaceOrRemove_none_eq]
  · rw [if_neg hmem]
    have hm : b.2.preset_numbers.filter (fun p => p ≠ n) = b.2.preset_numbers := by
      apply List.filter_eq_self.mpr
      intro p hp
      simpa using fun hh : p = n => hmem (hh ▸ hp)
    rw [hm]

/-- C1: starting from any storage whose banks reference only existing
presets, every sequence of `move` reorders and preset removals keeps that
invariant (so it holds after each operation of the sequence); moreover a
successful move rewrites every occurrence of the source slot to the target
slot in every bank, and a removal deletes every occurrence of the removed
slot from every bank. -/
theorem c1_bank_integrity :
    (∀ st : Storage, BankOK st → ∀ ops : List StorageOp, BankOK (runStorageOps st ops))
    ∧ (∀ (st : Storage) (s t : ℤ), (alookup st.presets s).isSome = true →
        ((reorder_presets st s t ReorderMode.move).1).banks
          = st.banks.map (fun b =>
              (b.1, Bank.mk b.2.name (b.2.preset_numbers.map (fun p => if p = s then t else p)))))
    ∧ (∀ (st : Storage) (n : ℤ), (alookup st.presets n).isSome = true →
        ((remove_preset st n).1).banks
          = st.banks.map (fun b =>
              (b.1, Bank.mk b.2.name (b.2.preset_numbers.filter (fun p => p ≠ n))))) := by
  refine ⟨?_, ?_, ?_⟩
  · intro st h ops
    induction ops generalizing st with
    | nil => exact h
    | cons op ops ih =>
        refine ih _ ?_
        rcases op with ⟨s, t⟩ | n
        · exact bankOK_move st h s t
        · exact bankOK_remove st h n
  · intro st s t hs
    rcases hlk : alookup st.presets s with _ | c
    · rw [hlk] at hs
      simp at hs
    · simp [reorder_presets, hlk, updateBanks_move_eq]
  · intro st n hn
    rcases hlk : alookup st.presets n with _ | c
    · rw [hlk] at hn
      simp at hn
    · simp [remove_preset, hlk, updateBanks_remove_eq]

/-- Two presets in slots 5 and 7 and one bank referencing both
(the storage of Scenario D in the specification). -/
def bankIntegritySample : Storage :=
  { presets := [(5, StoredFile.valid JVal.jnull), (7, StoredFile.valid JVal.jnull)],
    banks := [(0, { name := "B", preset_numbers := [5, 7] })] }

/-- Witness for C1: moving preset 5 to slot 12 and then removing preset 7
keeps bank integrity, and the move rewrites the bank to `[12, 7]`. -/
theorem c1_witness :
    BankOK bankIntegritySample
    ∧ BankOK (runStorageOps bankIntegritySample [StorageOp.move 5 12, StorageOp.remove 7])
    ∧ ((reorder_presets bankIntegritySample 5 12 ReorderMode.move).1).banks
        = [(0, { name := "B", preset_numbers := [12, 7] })] :=
  ⟨by decide,
   c1_bank_integrity.1 bankIntegritySample (by decide) [StorageOp.move 5 12, StorageOp.remove 7],
   (c1_bank_integrity.2.1 bankIntegritySample 5 12 (by decide)).trans (by decide)⟩

/-- C6 (amended): a `move` reorder whose source slot has no record raises
not-found before any mutation, leaving presets and banks untouched; a
removal of a missing slot also mutates nothing, but it reports no error at
all — the `if path.exists()` guard silently skips the operation. -/
theorem c6_missing_slot (st : Storage) (s t n : ℤ)
    (hs : alookup st.presets s = none) (hn : alookup st.presets n = none) :
    reorder_presets st s t ReorderMode.move = (st, some (StorageErr.notFound s))
    ∧ remove_preset st n = (st, none) := by
  constructor
  · simp [reorder_presets, hs]
  · simp [remove_preset, hn]

/-- Storage with no presets and no banks. -/
def emptyStorage : Storage := { presets := [], banks := [] }

/-- C6 counterexample: removing the non-existent preset 7 from empty
storage completes without reporting any error to the caller, contradicting
the claim that both operations fail with a reported error. -/
theorem c6_counterexample :
    alookup emptyStorage.presets 7 = none
    ∧ remove_preset emptyStorage 7 = (emptyStorage, none)
    ∧ (remove_preset emptyStorage 7).2 = none := ⟨rfl, rfl, rfl⟩

/-- Witness for the amended C6 on empty storage. -/
theorem c6_witness :
    reorder_presets emptyStorage 1 2 ReorderMode.move
      = (emptyStorage, some (StorageErr.notFound 1))
    ∧ remove_preset emptyStorage 3 = (emptyStorage, none) :=
  c6_missing_slot emptyStorage 1 2 3 rfl rfl

/-- C7 (amended): the preset listing returns exactly one entry per stored
record, keyed by its slot, and reports each malformed record with the
sentinel name `Error`; the bank listing has no such tolerance — any
malformed bank record makes the whole listing raise. -/
theorem c7_listing_tolerance (files : List (ℤ × StoredFile)) :
    (get_preset_list files).length = files.length
    ∧ (∀ (i : ℕ) (n : ℤ) (f : StoredFile), files[i]? = some (n, f) →
        ((get_preset_list files)[i]?).map Prod.fst = some n)
    ∧ (∀ (i : ℕ) (n : ℤ), files[i]? = some (n, StoredFile.corrupt) →
        (get_preset_list files)[i]? = some (n, JVal.jstr "Error"))
    ∧ (∀ n : ℤ, (n, StoredFile.corrupt) ∈ files → get_bank_list files = none) := by
  induction files with
  | nil =>
      refine ⟨rfl, ?_, ?_, ?_⟩
      · intro i n f h
        simp at h
      · intro i n h
        simp at h
      · intro n h
        simp at h
  | cons pf rest ih =>
      obtain ⟨n0, f0⟩ := pf
      obtain ⟨ihlen, ihfst, ihcor, ihbank⟩ := ih
      refine ⟨?_, ?_, ?_, ?_⟩
      · simpa [get_preset_list] using ihlen
      · rintro (_ | i) n f hf
        · simp only [List.getElem?_cons_zero, Option.some.injEq, Prod.mk.injEq] at hf
          obtain ⟨rfl, rfl⟩ := hf
          simp [get_preset_list]
        · simp only [List.getElem?_cons_succ] at hf
          simpa [get_preset_list] using ihfst i n f hf
      · rintro (_ | i) n hf
        · simp only [List.getElem?_cons_zero, Option.some.injEq, Prod.mk.injEq] at hf
          obtain ⟨rfl, rfl⟩ := hf
          simp [get_preset_list]
        · simp only [List.getElem?_cons_succ] at hf
          simpa [get_preset_list] using ihcor i n hf
      · intro n hmem
        rcases List.mem_cons.mp hmem with heq | h2
        · obtain ⟨rfl, rfl⟩ : n0 = n ∧ f0 = StoredFile.corrupt := by
            injection heq.symm with ha hb
            exact ⟨ha, hb⟩
          rfl
        · have hrest := ihbank n h2
          cases f0 with
          | corrupt => rfl
          | valid j => cases j <;> simp [get_bank_list, hrest]

/-- One corrupt record in slot 0 next to a well-formed record in slot 1. -/
def mixedFiles : List (ℤ × StoredFile) :=
  [(0, StoredFile.corrupt), (1, StoredFile.valid (JVal.jobj [("name", JVal.jstr "A")]))]

/-- C7 counterexample: with a single corrupt bank record the whole bank
listing raises (`none`), while the preset listing of the same file reports
it as one entry with the sentinel name `Error` — `get_bank_list` does not
tolerate malformed records as the claim states. -/
theorem c7_counterexample :
    get_bank_list [((0:ℤ), StoredFile.corrupt)] = none
    ∧ get_preset_list [((0:ℤ), StoredFile.corrupt)] = [(0, JVal.jstr "Error")] := ⟨rfl, rfl⟩

/-- Witness for the amended C7 on a mixed preset directory. -/
theorem c7_witness :
    (get_preset_list mixedFiles).length = mixedFiles.length
    ∧ (get_preset_list mixedFiles)[0]? = some (0, JVal.jstr "Error")
    ∧ get_bank_list mixedFiles = none :=
  ⟨(c7_listing_tolerance mixedFiles).1,
   (c7_listing_tolerance mixedFiles).2.2.1 0 0 rfl,
   (c7_listing_tolerance mixedFiles).2.2.2 0 (by simp [mixedFiles])⟩

/-! ## List screens (src/main.py: MenuState and ListItemReplaceState) -/

/-- The scrolling state of a list screen: the item count, the selected
index and the first visible item index. `MenuState._down/_up` and
`ListItemReplaceState._down/_up` read and write exactly these fields. -/
structure MenuScr where
  nitems : ℤ
  selected_index : ℤ
  scroll_offset : ℤ
deriving DecidableEq, Repr

/-- The constant `MAX_LINES`, the visible window height of both screens. -/
def MAX_LINES : ℤ := 4

/-- Models `_down`: move the cursor down one item, scrolling by one when the
selection passes the bottom edge of the window; a no-op at the last item. -/
def menuDown (s : MenuScr) : MenuScr :=
  if s.selected_index ≥ s.nitems - 1 then s
  else
    let sel := s.selected_index + 1
    if sel ≥ s.scroll_offset + MAX_LINES then
      { s with selected_index := sel, scroll_offset := s.scroll_offset + 1 }
    else { s with selected_index := sel }

/-- Models `_up`: move the cursor up one item, scrolling by one when the selection
passes the top edge of the window; a no-op at the first item. -/
def menuUp (s : MenuScr) : MenuScr :=
  if s.selected_index ≤ 0 then s
  else
    let sel := s.selected_index - 1
    if sel < s.scroll_offset then
      { s with selected_index := sel, scroll_offset := s.scroll_offset - 1 }
    else { s with selected_index := sel }

/-- Models `MenuState.__init__`: selection and scroll offset both start at 0. -/
def menuInitScr (nitems : ℤ) : MenuScr :=
  { nitems := nitems, selected_index := 0, scroll_offset := 0 }

/-- Models `ListItemReplaceState.__init__`: the selection starts at the caller's
`current_index` while the scroll offset starts at 0. -/
def listItemReplaceInit (nitems current_index : ℤ) : MenuScr :=
  { nitems := nitems, selected_index := current_index, scroll_offset := 0 }

/-- The scroll invariant of the specification: the selected index lies in
the visible window. -/
def ScrollInv (s : MenuScr) : Prop :=
  s.scroll_offset ≤ s.selected_index ∧ s.selected_index < s.scroll_offset + MAX_LINES

instance instDecidableScrollInv (s : MenuScr) : Decidable (ScrollInv s) := by
  unfold ScrollInv
  infer_instance

/-- A selection move. -/
inductive MoveOp where
  | down
  | up

/-- Apply one selection move. -/
def applyMove (s : MenuScr) : MoveOp → MenuScr
  | MoveOp.down => menuDown s
  | MoveOp.up => menuUp s

/-- Run a sequence of selection moves. -/
def runMoves : MenuScr → List MoveOp → MenuScr
  | s, [] => s
  | s, m :: ms => runMoves (applyMove s m) ms

/-- One move preserves the scroll invariant. -/
theorem scrollInv_applyMove (s : MenuScr) (h : ScrollInv s) (m : MoveOp) :
    ScrollInv (applyMove s m) := by
  obtain ⟨h1, h2⟩ := h
  rcases m with _ | _ <;>
    simp only [applyMove, menuDown, menuUp, ScrollInv, MAX_LINES] at * <;>
    split_ifs <;> simp_all <;> omega

/-- Any sequence of moves preserves the scroll invariant. -/
theorem scrollInv_runMoves (s : MenuScr) (h : ScrollInv s) (moves : List MoveOp) :
    ScrollInv (runMoves s moves) := by
  induction moves generalizing s with
  | nil => exact h
  | cons m ms ih => exact ih _ (scrollInv_applyMove s h m)

/-- C8 (amended): the scroll invariant holds for every `MenuState`-style
screen as constructed (selection and offset 0) and is preserved by every
sequence of up/down moves from any state satisfying it; a
`ListItemReplaceState` satisfies it at construction only when its
`current_index` argument lies inside the window `[0, MAX_LINES)`, in which
case it too keeps it under all moves. -/
theorem c8_scroll_invariant_amended :
    (∀ (s : MenuScr) (m : MoveOp), ScrollInv s → ScrollInv (applyMove s m))
    ∧ (∀ n : ℤ, ScrollInv (menuInitScr n))
    ∧ (∀ (n : ℤ) (moves : List MoveOp), ScrollInv (runMoves (menuInitScr n) moves))
    ∧ (∀ n ci : ℤ, 0 ≤ ci → ci < MAX_LINES → ScrollInv (listItemReplaceInit n ci))
    ∧ (∀ (n ci : ℤ) (moves : List MoveOp), 0 ≤ ci → ci < MAX_LINES →
        ScrollInv (runMoves (listItemReplaceInit n ci) moves)) := by
  refine ⟨fun s m h => scrollInv_applyMove s h m, ?_, ?_, ?_, ?_⟩
  · intro n
    exact ⟨le_refl 0, by norm_num [menuInitScr, MAX_LINES]⟩
  · intro n moves
    exact scrollInv_runMoves _ ⟨le_refl 0, by norm_num [menuInitScr, MAX_LINES]⟩ moves
  · intro n ci h0 h4
    exact ⟨h0, by simpa [listItemReplaceInit] using h4⟩
  · intro n ci moves h0 h4
    exact scrollInv_runMoves _ ⟨h0, by simpa [listItemReplaceInit] using h4⟩ moves

/-- C8 counterexample: `SavePresetState.return_to_previous` constructs
`ListItemReplaceState` with `current_index` equal to the current preset
slot; with ten items and `current_index = 5` the freshly constructed state
already violates the scroll invariant (5 is outside the window `[0, 4)`),
so the claimed invariant fails at an initial construction it quantifies
over. -/
theorem c8_counterexample : ¬ ScrollInv (listItemReplaceInit 10 5) := by decide

/-- Witness for the amended C8. -/
theorem c8_witness :
    ScrollInv (menuInitScr 10)
    ∧ ScrollInv (runMoves (listItemReplaceInit 10 2)
        [MoveOp.down, MoveOp.down, MoveOp.down, MoveOp.up]) :=
  ⟨c8_scroll_invariant_amended.2.1 10,
   c8_scroll_invariant_amended.2.2.2.2 10 2
     [MoveOp.down, MoveOp.down, MoveOp.down, MoveOp.up] (by decide) (by decide)⟩

/-! ## Action model and registry (src/main.py: Action, ActionRegistry) -/

/-- An in-memory action object. Parameter values are stored exactly as
constructed or deserialized (`ActionParam.value`), so they are JSON
values; `Composite` holds its ordered children, among which a Python
`None` can appear when a child record's type tag was unknown to the
registry (`create_action_by_type` returns `None` and
`CompositeAction.__init__` appends it). `base` is the plain `Action`
fallback returned by `from_dict` for unknown top-level tags. -/
inductive MAction where
  | base : MAction
  | noneChild : MAction
  | info : JVal → MAction
  | cc : JVal → MAction
  | pc : JVal → MAction
  | composite : List MAction → MAction

/-- The `TYPE` tag of each registered action class (`Action.TYPE`). -/
def tagOf : MAction → String
  | MAction.base => "base"
  | MAction.noneChild => ""
  | MAction.info _ => "info"
  | MAction.cc _ => "cc"
  | MAction.pc _ => "pc"
  | MAction.composite _ => "composite"

mutual

/-- Models `Action.to_dict`: the record is `{"type": TYPE}` plus one field per
parameter in insertion order; a parameter value that is a list is
serialized by `list_to_dict`. -/
def toDictFields : MAction → List (String × JVal)
  | MAction.base => [("type", JVal.jstr "base")]
  | MAction.noneChild => []
  | MAction.info v => [("type", JVal.jstr "info"), ("info", v)]
  | MAction.cc v => [("type", JVal.jstr "cc"), ("cc", v)]
  | MAction.pc v => [("type", JVal.jstr "pc"), ("pc", v)]
  | MAction.composite cs =>
      [("type", JVal.jstr "composite"), ("actions", JVal.jlist (serItems cs))]

/-- Models `Action.list_to_dict`: items with a `to_dict` method are serialized,
other items (a `None` child) are written as they are (`null`). -/
def serItems : List MAction → List JVal
  | [] => []
  | MAction.noneChild :: rest => JVal.jnull :: serItems rest
  | a :: rest => JVal.jobj (toDictFields a) :: serItems rest

end

/-- The full `Action.to_dict` output as a JSON value. -/
def toDict (a : MAction) : JVal := JVal.jobj (toDictFields a)

mutual

/-- Construction of a registered action class from a record:
`action_cls(context=context, **data)`. The outer `Option` is an exception
during construction; the inner `Option` is `none` when the tag is not in
the `ActionRegistry` (the registry holds exactly `info`, `cc`, `pc` and
`composite`). Absent fields fall back to the constructor defaults
(`info="Info"`, `cc=127`, `pc=0`, `actions=[]`). Records with keys that
collide with the `context` keyword argument or the `params` attribute, or
keys that are not valid Python identifiers, would raise inside the
`**data` call; no claim constructs an action from such a record and they
are left out of the model. -/
def createByTag (tag : String) (fields : List (String × JVal)) : Option (Option MAction) :=
  if tag = "info" then
    some (some (MAction.info ((lookupField fields "info").getD (JVal.jstr "Info"))))
  else if tag = "cc" then
    some (some (MAction.cc ((lookupField fields "cc").getD (JVal.jint 127))))
  else if tag = "pc" then
    some (some (MAction.pc ((lookupField fields "pc").getD (JVal.jint 0))))
  else if tag = "composite" then
    match findActionsField fields with
    | none => some (some (MAction.composite []))
    | some none => none
    | some (some cs) => some (some (MAction.composite cs))
  else some none

/-- Scan of the record for the `actions` keyword argument of
`CompositeAction.__init__` (`none` when the key is absent). -/
def findActionsField : List (String × JVal) → Option (Option (List MAction))
  | [] => none
  | (k, v) :: rest =>
      if k = "actions" then some (actionsFromVal v) else findActionsField rest

/-- Iteration of `CompositeAction.__init__` over its `actions` argument:
a JSON array is walked item by item; iterating a string (its characters)
or a dict (its keys) yields no dict or `Action` items, so every item is
skipped; iterating an int or `None` raises `TypeError`. -/
def actionsFromVal : JVal → Option (List MAction)
  | JVal.jlist xs => fixActions xs
  | JVal.jstr _ => some []
  | JVal.jobj _ => some []
  | JVal.jint _ => none
  | JVal.jnull => none

/-- The item loop in `CompositeAction.__init__`: a dict item is rebuilt
with `create_action_by_type(item["type"], item)` (a missing `type` key
raises `KeyError`, an unhashable tag raises `TypeError` in the registry
lookup, a hashable unknown tag yields a `None` child); items that are
neither dicts nor `Action` objects are skipped. -/
def fixActions : List JVal → Option (List MAction)
  | [] => some []
  | JVal.jobj f :: rest =>
      match lookupField f "type" with
      | none => none
      | some (JVal.jstr tag) =>
          match createByTag tag f with
          | none => none
          | some none =>
              match fixActions rest with
              | none => none
              | some cs => some (MAction.noneChild :: cs)
          | some (some a) =>
              match fixActions rest with
              | none => none
              | some cs => some (a :: cs)
      | some (JVal.jint _) =>
          match fixActions rest with
          | none => none
          | some cs => some (MAction.noneChild :: cs)
      | some JVal.jnull =>
          match fixActions rest with
          | none => none
          | some cs => some (MAction.noneChild :: cs)
      | some (JVal.jlist _) => none
      | some (JVal.jobj _) => none
  | _ :: rest => fixActions rest

end

/-- Models `Action.from_dict`: looks up `data.get("type")` in the registry; a
registered class is constructed from the record, an unknown or missing
(hashable) tag falls back to the plain base `Action` with a printed
warning, an unhashable tag raises in the registry lookup. -/
def fromDict (fields : List (String × JVal)) : Option MAction :=
  match lookupField fields "type" with
  | none => some MAction.base
  | some (JVal.jstr tag) =>
      match createByTag tag fields with
      | none => none
      | some none => some MAction.base
      | some (some a) => some a
  | some (JVal.jint _) => some MAction.base
  | some JVal.jnull => some MAction.base
  | some (JVal.jlist _) => none
  | some (JVal.jobj _) => none

/-- Models `Action.from_dict` on a JSON value (`data.get` raises on a non-dict). -/
def fromDictV : JVal → Option MAction
  | JVal.jobj fields => fromDict fields
  | _ => none

mutual

/-- Models `execute` of each action kind against the device context, recording
the `show_info` side effects in order; `none` models a raised exception:
the base `Action.execute` raises `NotImplementedError`, and executing a
`None` child raises `AttributeError`. -/
def executeAct : MAction → Option (List JVal)
  | MAction.base => none
  | MAction.noneChild => none
  | MAction.info v => some [v]
  | MAction.cc v => some [v]
  | MAction.pc v => some [v]
  | MAction.composite cs => executeList cs

/-- Models `CompositeAction.execute`: children run in order; a raise aborts. -/
def executeList : List MAction → Option (List JVal)
  | [] => some []
  | a :: rest =>
      match executeAct a with
      | none => none
      | some es =>
          match executeList rest with
          | none => none
          | some rs => some (es ++ rs)

end

mutual

/-- Actions built by the registered constructors with arguments of the
declared parameter types: `InfoAction(info: str)`, `CCAction(cc: int)`,
`PCAction(pc: int)` and `CompositeAction(actions: List[Action])` whose
children are themselves built this way. -/
def Built : MAction → Bool
  | MAction.info (JVal.jstr _) => true
  | MAction.cc (JVal.jint _) => true
  | MAction.pc (JVal.jint _) => true
  | MAction.composite cs => BuiltList cs
  | _ => false

/-- All actions of a child list are built by registered constructors. -/
def BuiltList : List MAction → Bool
  | [] => true
  | a :: rest => Built a && BuiltList rest

end

/-- The keys registered in the `ActionRegistry` by `__init_subclass__`
(every `Action` subclass with a non-base `TYPE`). -/
def registryKeys : List String := ["info", "cc", "pc", "composite"]

/-- A built action serializes as an object item in `list_to_dict`. -/
theorem serItems_cons_built (a : MAction) (rest : List MAction) (h : Built a = true) :
    serItems (a :: rest) = JVal.jobj (toDictFields a) :: serItems rest := by
  cases a <;> first | rfl | simp [Built] at h

/-- The serialized record of a built action carries its `TYPE` tag. -/
theorem lookup_type_toDictFields (a : MAction) (h : Built a = true) :
    lookupField (toDictFields a) "type" = some (JVal.jstr (tagOf a)) := by
  cases a <;> first | rfl | simp [Built] at h

mutual

/-- Registry construction undoes serialization for built actions. -/
theorem createByTag_roundtrip : ∀ (a : MAction), Built a = true →
    createByTag (tagOf a) (toDictFields a) = some (some a)
  | MAction.base, h => by simp [Built] at h
  | MAction.noneChild, h => by simp [Built] at h
  | MAction.info v, _ => by
      simp [createByTag, tagOf, toDictFields, lookupField]
  | MAction.cc v, _ => by
      simp [createByTag, tagOf, toDictFields, lookupField]
  | MAction.pc v, _ => by
      simp [createByTag, tagOf, toDictFields, lookupField]
  | MAction.composite cs, h => by
      have ih := fixActions_roundtrip cs (by simpa [Built] using h)
      simp [createByTag, tagOf, toDictFields, findActionsField, actionsFromVal, ih]

/-- The child-list loop undoes `list_to_dict` for built children. -/
theorem fixActions_roundtrip : ∀ (cs : List MAction), BuiltList cs = true →
    fixActions (serItems cs) = some cs
  | [], _ => by simp [serItems, fixActions]
  | a :: rest, h => by
      have hb : Built a = true := by
        have h2 := h
        simp [BuiltList] at h2
        exact h2.1
      have hrest : BuiltList rest = true := by
        have h2 := h
        simp [BuiltList] at h2
        exact h2.2
      have ih := fixActions_roundtrip rest hrest
      have hc := createByTag_roundtrip a hb
      rw [serItems_cons_built a rest hb]
      simp [fixActions, lookup_type_toDictFields a hb, hc, ih]

end

/-- Deserialization `from_dict` undoes `to_dict` for built actions. -/
theorem fromDict_roundtrip (a : MAction) (h : Built a = true) :
    fromDict (toDictFields a) = some a := by
  have h1 := lookup_type_toDictFields a h
  have h2 := createByTag_roundtrip a h
  simp [fromDict, h1, h2]

/-- C2: for every action built from a constructor registered in the
`ActionRegistry` (info, cc, pc, composite), including composites with
nested children and nested value lists, `Action.from_dict(a.to_dict())`
succeeds and produces an action whose `to_dict()` output is identical to
`a.to_dict()`. -/
theorem c2_roundtrip (a : MAction) (h : Built a = true) :
    ∃ b, fromDictV (toDict a) = some b ∧ toDict b = toDict a := by
  refine ⟨a, ?_, rfl⟩
  simpa [fromDictV, toDict] using fromDict_roundtrip a h

/-- A nested composite built from the registered constructors. -/
def sampleComposite : MAction :=
  MAction.composite [MAction.info (JVal.jstr "hello"), MAction.cc (JVal.jint 5),
    MAction.composite [MAction.pc (JVal.jint 3)], MAction.pc (JVal.jint 0)]

/-- Witness for C2 on a concrete nested composite. -/
theorem c2_witness :
    Built sampleComposite = true
    ∧ ∃ b, fromDictV (toDict sampleComposite) = some b ∧ toDict b = toDict sampleComposite :=
  ⟨rfl, c2_roundtrip sampleComposite rfl⟩

/-- C5 (amended): deserializing a record whose type tag is a string not in
the `ActionRegistry` does not abort the load — `Action.from_dict` prints a
warning and returns the plain base `Action` substitute instead of raising;
however that substitute is not a neutral no-op: its `execute` raises
`NotImplementedError` (modelled as `none`). -/
theorem c5_unknown_tag (fields : List (String × JVal)) (tag : String)
    (htag : lookupField fields "type" = some (JVal.jstr tag))
    (hmiss : tag ∉ registryKeys) :
    fromDict fields = some MAction.base ∧ executeAct MAction.base = none := by
  simp only [registryKeys, List.mem_cons, List.mem_singleton, not_or] at hmiss
  obtain ⟨h1, h2, h3, h4⟩ := hmiss
  constructor
  · simp [fromDict, htag, createByTag, h1, h2, h3, h4]
  · rfl

/-- C5 counterexample: `from_dict` on an unknown type tag does return the
base `Action` without raising, but the substitute's `execute` raises
`NotImplementedError` rather than performing no effect, so the returned
action is not the claimed neutral no-op. -/
theorem c5_counterexample :
    fromDict [("type", JVal.jstr "bogus")] = some MAction.base
    ∧ executeAct MAction.base = none
    ∧ executeAct MAction.base ≠ some [] := by
  refine ⟨by simp [fromDict, lookupField, createByTag], rfl, by simp [executeAct]⟩

/-- Witness for the amended C5 at a concrete unknown tag. -/
theorem c5_witness :
    fromDict [("type", JVal.jstr "unknown_kind")] = some MAction.base
    ∧ executeAct MAction.base = none :=
  c5_unknown_tag [("type", JVal.jstr "unknown_kind")] "unknown_kind" rfl (by decide)
